import Mathlib

/-!
# Conductor driver-station backend: a shallow embedding

A shallow embedding of `src/main.rs` and `src/ws.rs` of the Conductor
repository.  The backend aggregates robot-link status and joystick state
into a shared `State` behind a reader/writer lock, relays it as typed
messages to the UI at a fixed cadence, and persists the team number on
shutdown.

Modules `state`, `input`, `ipc`, `cfg`, `keys` and `webserver` are declared
in `main.rs` but their sources are absent; the definitions that stand in
for them are modelled from the specification and say so in their doc
comments.  Externally scheduled effects (thread spawns, lock operations,
channel receives, message sends) are recorded as an explicit trace of
events, so that ordering and locking claims become statements about
traces.
-/

namespace Conductor

/-- Operating systems distinguished by the `#[cfg(target_os = ...)]`
attributes in `main.rs`. -/
inductive OS where
  | windows
  | linux
  | macos
deriving DecidableEq, Repr

/-- Modelled from the spec: persisted configuration (module `cfg` is absent
from the sources); §3 and §1 say the persisted configuration is the team
number, on disk. -/
structure Config where
  team_number : Nat
deriving DecidableEq, Repr

/-- The `DsMode` enumeration of the external `ds` crate, at the interface
used by `main.rs` (`DsMode::Simulation` comparison). -/
inductive DsMode where
  | Normal
  | Simulation
deriving DecidableEq, Repr

/-- The external robot-link engine (`ds` crate), modelled at the interface
`main.rs` uses: `trace().is_connected()`, `trace().is_code_started()`,
`ds_mode()`, `battery_voltage()`, `team_number()`. -/
structure DriverStation where
  connected : Bool
  code_started : Bool
  mode : DsMode
  battery_voltage : Rat
  team_number : Nat
deriving DecidableEq, Repr

/-- `ds.trace().is_connected()`. -/
def DriverStation.trace_is_connected (ds : DriverStation) : Bool :=
  ds.connected

/-- `ds.trace().is_code_started()`. -/
def DriverStation.trace_is_code_started (ds : DriverStation) : Bool :=
  ds.code_started

/-- `ds.ds_mode()`. -/
def DriverStation.ds_mode (ds : DriverStation) : DsMode :=
  ds.mode

/-- Modelled from the spec: the process-wide joystick cache entry (module
`input` is absent from the sources); §3 describes a cache of currently
attached input devices. -/
structure JoystickState where
  devices : List String
deriving DecidableEq, Repr

/-- Modelled from the spec: `has_joysticks() -> bool` (§4.4): cheap presence
query; if no devices are present it returns false, not an error. -/
def JoystickState.has_joysticks (j : JoystickState) : Bool :=
  !j.devices.isEmpty

/-- Modelled from the spec: AuthoritativeState (module `state` is absent from
the sources); §3: the record holding the DsEngine handle whose
connection/code/voltage/mode and team number the rest of the core reads.
The relay endpoint and stdout wiring are opaque to every claim and are
recorded only as trace events. -/
structure State where
  ds : DriverStation
deriving DecidableEq, Repr

/-- Modelled from the spec: `State::update_ds` (§4.6): forwards a new team
number to the DsEngine held in AuthoritativeState. -/
def State.update_ds (s : State) (team : Nat) : State :=
  { s with ds := { s.ds with team_number := team } }

/-- Modelled from the spec: the `Message` enum (module `ipc` is absent from
the sources); §3 and §6 give the closed set of variants, matching the
construction sites in `main.rs`. -/
inductive Message where
  | UpdateTeamNumber (team_number : Nat) (from_backend : Bool)
  | Capabilities (backend_keybinds : Bool)
  | RobotStateUpdate (comms_alive : Bool) (code_alive : Bool)
      (simulator : Bool) (joysticks : Bool) (voltage : Rat)
deriving DecidableEq, Repr

/-- Observable effects of the backend, in per-thread program order.
Lock events name the lock they touch; `derefSnapshot` is the
`JS_STATE.get().unwrap()` dereference of the joystick cache cell. -/
inductive Event where
  | loadConfig
  | setPanicHook
  | showDialog (title : String) (text : String)
  | processExit (code : Nat)
  | constructState
  | launchWebserver
  | recvPrimary
  | recvSecondary
  | sendSetAddr
  | wireStdout
  | updateDs (team : Nat)
  | bindKeys
  | sendMsg (m : Message)
  | initSnapshot
  | spawnTelemetry
  | acquireStateRead
  | derefSnapshot
  | acquireJsRead
  | releaseJsRead
  | releaseStateRead
  | sleepMs (ms : Nat)
  | runEventLoop
  | storeConfig (c : Config)
deriving DecidableEq, Repr

/-- How a run of a thread ends: normally, by a panic (an `unwrap` on a
failed operation), by an explicit `std::process::exit`, or parked forever
in the GUI event loop. -/
inductive Outcome where
  | completed
  | panicked
  | exitedProcess (code : Nat)
  | parked
deriving DecidableEq, Repr

/-! ## The telemetry broadcaster (`main.rs` lines 129–155)

One loop body of the thread spawned at line 129.  It takes the state the
reader lock would observe this cycle and the content of the `JS_STATE`
cell (`none` when the cell was never initialized, in which case the
`.get().unwrap()` panics).  Lock acquisitions and releases are emitted
where the Rust borrows begin and end: the `state.read()` guard lives for
the whole `msg` block, the `JS_STATE...read()` guard only for the
`has_joysticks()` call, and both are gone before `addr.do_send(msg)`. -/

/-- One cycle of the telemetry broadcaster thread. -/
def telemetryIteration (st : State) (jsCell : Option JoystickState) :
    List Event × Outcome :=
  match jsCell with
  | none => ([Event.acquireStateRead, Event.derefSnapshot], Outcome.panicked)
  | some js =>
    let comms := st.ds.trace_is_connected
    let code := st.ds.trace_is_code_started
    let sim := st.ds.ds_mode == DsMode.Simulation
    let joysticks := js.has_joysticks
    let voltage := st.ds.battery_voltage
    let msg := Message.RobotStateUpdate comms code sim joysticks voltage
    ([Event.acquireStateRead, Event.derefSnapshot, Event.acquireJsRead,
      Event.releaseJsRead, Event.releaseStateRead, Event.sendMsg msg,
      Event.sleepMs 50],
     Outcome.completed)

/-- Net effect of an event on the hold count of the AuthoritativeState
reader lock. -/
def stateLockDelta : Event → Int
  | Event.acquireStateRead => 1
  | Event.releaseStateRead => -1
  | _ => 0

/-- Net effect of an event on the hold count of the joystick-snapshot
reader lock. -/
def jsLockDelta : Event → Int
  | Event.acquireJsRead => 1
  | Event.releaseJsRead => -1
  | _ => 0

/-- Number of holds of a lock (counted by `delta`) still open when the
event at position `i` of the trace runs. -/
def heldBefore (delta : Event → Int) (l : List Event) (i : Nat) : Int :=
  ((l.take i).map delta).sum

/-! ## The webserver handshake (`ws.rs` lines 47–67)

`launch_webserver` spawns the server thread and blocks on a one-shot
channel for the bound port; `port_rx.recv().unwrap()` panics when the
channel closes before delivering.  The channel's delivery is the
parameter: `none` is a closed channel. -/

/-- `launch_webserver` of `ws.rs`: the blocking `recv().unwrap()` on the
port handshake, `none` meaning the channel closed without delivering. -/
def launch_webserver (portDelivery : Option Nat) : Option Nat :=
  match portDelivery with
  | none => none
  | some port => some port

/-! ## The GUI event loop (`main.rs` lines 159–187)

The window host is an external collaborator (spec §1).  Modelled from the
spec: the main thread parks in the GUI event loop and returns control on
the close path, after which it persists the team number (§2, §6).  The
handler itself is embedded from the closure at lines 159–187: every event
first sets `ControlFlow::Wait`; a `CloseRequested` for the main window's
id sets `ControlFlow::Exit`; a `CloseRequested` for any other window and
`MainEventsCleared` leave `Wait`. -/

/-- Window events dispatched to the closure of `event_loop.run`. -/
inductive WindowEvent where
  | closeRequested (windowId : Nat)
  | mainEventsCleared
  | other
deriving DecidableEq, Repr

/-- The `ControlFlow` values the closure assigns. -/
inductive ControlFlow where
  | Wait
  | ExitLoop
deriving DecidableEq, Repr

/-- The event-handler closure at `main.rs` lines 159–187: `Wait` unless the
main window's close was requested. -/
def eventLoopHandler (mainWindowId : Nat) (e : WindowEvent) : ControlFlow :=
  match e with
  | WindowEvent.closeRequested wid =>
      if wid = mainWindowId then ControlFlow.ExitLoop else ControlFlow.Wait
  | WindowEvent.mainEventsCleared => ControlFlow.Wait
  | WindowEvent.other => ControlFlow.Wait

/-- Whether the stream of window events ever drives the handler to
`ControlFlow::Exit`, i.e. whether the run ends via the close path. -/
def eventLoopExits (mainWindowId : Nat) (evs : List WindowEvent) : Bool :=
  evs.any fun e => eventLoopHandler mainWindowId e == ControlFlow.ExitLoop

/-! ## The main thread (`main.rs` lines 33–195)

`mainRun` produces the main thread's event trace and outcome, as a
function of the external inputs: the operating system, the results of the
fallible external operations (`confy::load`, the port handshake inside
`launch_webserver`, the two relay handshake receives), the capability
flag `keys::bind_keys` returns, the stream of GUI window events, and the
authoritative state at the moment the event loop exits (it is mutated
concurrently by the command path while the main thread is parked). -/

/-- External inputs of one run of `main`. -/
structure Env where
  os : OS
  loadResult : Option Config
  rustBacktraceSet : Bool
  portRecv : Option Nat
  primaryRecv : Option Unit
  secondaryRecv : Option Unit
  bindKeysResult : Bool

/-- Title of the unsupported-platform dialog (`main.rs` line 46). -/
def windowsDialogTitle : String := "Unsupported Environment"

/-- Text of the unsupported-platform dialog (`main.rs` line 47). -/
def windowsDialogText : String :=
  "The Conductor Driver Station is not supported on your operating system. Please use the NI Driver Station instead.\n\nThis application will now terminate."

/-- The panic hook is installed only when `RUST_BACKTRACE` is unset
(`main.rs` lines 37–39). -/
def hookEvents (env : Env) : List Event :=
  if env.rustBacktraceSet then [] else [Event.setPanicHook]

/-- Startup through the relay handshakes (`main.rs` lines 53–104): state
construction, webserver launch, the blocking primary receive, and, on
Linux only, the secondary console-relay receive and its address rebind. -/
def handshakeEvents (env : Env) : List Event :=
  Event.loadConfig :: hookEvents env ++
    [Event.constructState, Event.launchWebserver, Event.recvPrimary] ++
    (if env.os = OS.linux then [Event.recvSecondary, Event.sendSetAddr] else [])

/-- The conditional initial team-number push (`main.rs` lines 108–114). -/
def teamEvents (cfg : Config) : List Event :=
  if cfg.team_number ≠ 0 then
    [Event.sendMsg (Message.UpdateTeamNumber cfg.team_number true),
     Event.updateDs cfg.team_number]
  else []

/-- The whole startup phase of the main thread on the success path,
ending with the spawn of the telemetry thread (`main.rs` lines 53–156). -/
def startupEvents (env : Env) (cfg : Config) : List Event :=
  handshakeEvents env ++ [Event.wireStdout] ++ teamEvents cfg ++
    [Event.bindKeys, Event.sendMsg (Message.Capabilities env.bindKeysResult),
     Event.initSnapshot, Event.spawnTelemetry]

/-- What the main thread does after spawning telemetry (`main.rs` lines
159–194): park in the event loop; when the close path exits it, read the
team number back from the state and store the configuration. -/
def mainTailEvents (mainWindowId : Nat) (guiEvents : List WindowEvent)
    (exitState : State) (cfg : Config) : List Event × Outcome :=
  if eventLoopExits mainWindowId guiEvents then
    ([Event.runEventLoop,
      Event.storeConfig { cfg with team_number := exitState.ds.team_number }],
     Outcome.completed)
  else
    ([Event.runEventLoop], Outcome.parked)

/-- The main thread of `main.rs`, lines 33–195, as a trace of events and an
outcome.  Failure paths mirror the `unwrap`s: a failed `confy::load`, a
closed port-handshake channel, or a closed relay-handshake channel end the
trace with a panic; on Windows the run shows the dialog and exits with
code 1 before constructing any component. -/
def mainRun (env : Env) (mainWindowId : Nat) (guiEvents : List WindowEvent)
    (exitState : State) : List Event × Outcome :=
  match env.loadResult with
  | none => ([Event.loadConfig], Outcome.panicked)
  | some cfg =>
    if env.os = OS.windows then
      (Event.loadConfig :: hookEvents env ++
        [Event.showDialog windowsDialogTitle windowsDialogText,
         Event.processExit 1],
       Outcome.exitedProcess 1)
    else
      match launch_webserver env.portRecv with
      | none =>
        (Event.loadConfig :: hookEvents env ++
          [Event.constructState, Event.launchWebserver], Outcome.panicked)
      | some _port =>
        match env.primaryRecv with
        | none =>
          (Event.loadConfig :: hookEvents env ++
            [Event.constructState, Event.launchWebserver, Event.recvPrimary],
           Outcome.panicked)
        | some _addr =>
          if env.os = OS.linux ∧ env.secondaryRecv = none then
            (Event.loadConfig :: hookEvents env ++
              [Event.constructState, Event.launchWebserver, Event.recvPrimary,
               Event.recvSecondary],
             Outcome.panicked)
          else
            let tail := mainTailEvents mainWindowId guiEvents exitState cfg
            (startupEvents env cfg ++ tail.1, tail.2)

/-! ## The asset handler (`ws.rs` lines 11–23)

`assets` looks the request path up in the embedded `Resources` bundle.
The bundle (module `resources`, a build-time embed) and the external
`mime_guess` crate are parameters: a lookup from paths to byte contents,
and a guess from paths to a mime type.  Bodies are byte lists; the 404
body is the UTF-8 of the literal in the source. -/

/-- The embedded `Resources` bundle, at the interface `ws.rs` uses:
`Resources::get` returns the bytes of an embedded file, when present. -/
structure ResourceBundle where
  get : String → Option (List Nat)

/-- The `mime_guess` crate at the interface used: the first guess for a
path, when one exists. -/
structure MimeGuess where
  from_path : String → Option String

/-- `first_or_octet_stream`: the first guess, or `application/octet-stream`
when no guess exists. -/
def MimeGuess.first_or_octet_stream (m : MimeGuess) (path : String) : String :=
  (m.from_path path).getD "application/octet-stream"

/-- An HTTP response as built by the handler: status code, the content
type the handler explicitly set (if any), and the body bytes. -/
structure HttpResponse where
  status : Nat
  content_type : Option String
  body : List Nat
deriving DecidableEq, Repr

/-- UTF-8 bytes of a string literal. -/
def bytesOfString (s : String) : List Nat :=
  s.toUTF8.toList.map UInt8.toNat

/-- The body of the 404 branch of `assets`. -/
def notFoundBody : List Nat := bytesOfString "404 Not Found"

/-- The `assets` handler of `ws.rs` lines 11–23: 200 with the guessed
content type and the embedded bytes when the bundle has the path, 404
with body `404 Not Found` otherwise. -/
def assets (res : ResourceBundle) (mime : MimeGuess) (path : String) :
    HttpResponse :=
  match res.get path with
  | some content =>
    { status := 200
      content_type := some (mime.first_or_octet_stream path)
      body := content }
  | none =>
    { status := 404, content_type := none, body := notFoundBody }

/-! ## Trace combinators for the ordering and initialization claims -/

/-- `a` occurs in the trace strictly before some occurrence of `b`. -/
def precedes (a b : Event) (l : List Event) : Prop :=
  ∃ l1 l2, l = l1 ++ a :: l2 ∧ b ∈ l2

/-- The events the telemetry thread emits over a run: one iteration per
state snapshot it observes, all against the one joystick cell. -/
def telemetryTrace (cell : Option JoystickState) (snaps : List State) :
    List Event :=
  match snaps with
  | [] => []
  | st :: rest => (telemetryIteration st cell).1 ++ telemetryTrace cell rest

/-- `Interleave xs ys zs`: `zs` is an interleaving of `xs` and `ys` that
keeps the internal order of each.  Used to quantify over every schedule of
the main thread against the telemetry thread. -/
inductive Interleave : List Event → List Event → List Event → Prop where
  | nil : Interleave [] [] []
  | left {x xs ys zs} : Interleave xs ys zs → Interleave (x :: xs) ys (x :: zs)
  | right {y xs ys zs} : Interleave xs ys zs → Interleave xs (y :: ys) (y :: zs)

/-- Interleaving adds the per-side counts. -/
theorem Interleave.countP_eq {p : Event → Bool} :
    ∀ {xs ys zs : List Event}, Interleave xs ys zs →
      zs.countP p = xs.countP p + ys.countP p := by
  intro xs ys zs h
  induction h with
  | nil => simp
  | left _ ih => simp [List.countP_cons, ih]; omega
  | right _ ih => simp [List.countP_cons, ih]; omega

/-- Every element of an interleaving comes from one of the sides. -/
theorem Interleave.mem_iff {e : Event} :
    ∀ {xs ys zs : List Event}, Interleave xs ys zs →
      (e ∈ zs ↔ e ∈ xs ∨ e ∈ ys) := by
  intro xs ys zs h
  induction h with
  | nil => simp
  | left _ ih => simp [List.mem_cons, ih]; tauto
  | right _ ih => simp [List.mem_cons, ih]; tauto

/-- Modelled from the spec (§4.3): one telemetry cycle in the spec's own
words — acquire the reader locks on AuthoritativeState and the device
snapshot, derive the five telemetry fields, release all locks, construct
a `RobotStateUpdate` carrying them, send it, sleep 50 ms. -/
def telemetryCycleSpec (st : State) (js : JoystickState) : List Event :=
  [Event.acquireStateRead, Event.derefSnapshot, Event.acquireJsRead,
   Event.releaseJsRead, Event.releaseStateRead,
   Event.sendMsg (Message.RobotStateUpdate st.ds.connected st.ds.code_started
     (st.ds.mode == DsMode.Simulation) js.has_joysticks st.ds.battery_voltage),
   Event.sleepMs 50]

/-! ## Theorems -/

/-- C2: on every cycle of the telemetry broadcaster, both reader locks
(AuthoritativeState's and the device snapshot's) have been released by the
time any send runs: the hold count of each lock is zero at every `sendMsg`
position of the cycle's trace. -/
theorem telemetry_send_holds_no_lock (st : State) (js : JoystickState)
    (i : Nat) (m : Message)
    (h : (telemetryIteration st (some js)).1.get? i = some (Event.sendMsg m)) :
    heldBefore stateLockDelta (telemetryIteration st (some js)).1 i = 0 ∧
    heldBefore jsLockDelta (telemetryIteration st (some js)).1 i = 0 := by
  rcases i with _ | _ | _ | _ | _ | _ | _ | i
  · simp [telemetryIteration] at h
  · simp [telemetryIteration] at h
  · simp [telemetryIteration] at h
  · simp [telemetryIteration] at h
  · simp [telemetryIteration] at h
  · exact ⟨rfl, rfl⟩
  · simp [telemetryIteration] at h
  · simp [telemetryIteration] at h

/-- Witness for C2 at a concrete cycle: the send sits at index 5 and both
hold counts are zero there. -/
theorem telemetry_send_holds_no_lock_witness :
    heldBefore stateLockDelta
      (telemetryIteration ⟨⟨true, false, DsMode.Simulation, 12, 4201⟩⟩
        (some ⟨["gamepad"]⟩)).1 5 = 0 ∧
    heldBefore jsLockDelta
      (telemetryIteration ⟨⟨true, false, DsMode.Simulation, 12, 4201⟩⟩
        (some ⟨["gamepad"]⟩)).1 5 = 0 :=
  telemetry_send_holds_no_lock ⟨⟨true, false, DsMode.Simulation, 12, 4201⟩⟩
    ⟨["gamepad"]⟩ 5 (Message.RobotStateUpdate true false true true 12) rfl

/-- C4: every telemetry cycle is exactly the spec's cycle — acquire the
reader locks, derive the five fields `comms_alive`, `code_alive`,
`simulator`, `joysticks`, `voltage` from the state and the snapshot,
release, send the `RobotStateUpdate` carrying them, sleep 50 ms — and no
other message kind is ever emitted by this loop, over any run. -/
theorem telemetry_cycle_correct (st : State) (js : JoystickState)
    (snaps : List State) :
    (telemetryIteration st (some js)).1 = telemetryCycleSpec st js ∧
    (telemetryIteration st (some js)).2 = Outcome.completed ∧
    (∀ m, Event.sendMsg m ∈ telemetryTrace (some js) snaps →
      ∃ c k s j v, m = Message.RobotStateUpdate c k s j v) := by
  refine ⟨rfl, rfl, ?_⟩
  intro m hm
  induction snaps with
  | nil => simp [telemetryTrace] at hm
  | cons st' rest ih =>
    rw [telemetryTrace, List.mem_append] at hm
    rcases hm with hm | hm
    · simp [telemetryIteration] at hm
      exact ⟨_, _, _, _, _, hm⟩
    · exact ih hm

/-- Witness for C4 at a concrete cycle and run. -/
theorem telemetry_cycle_correct_witness :
    (telemetryIteration ⟨⟨true, false, DsMode.Simulation, 12, 4201⟩⟩
      (some ⟨[]⟩)).1 =
      telemetryCycleSpec ⟨⟨true, false, DsMode.Simulation, 12, 4201⟩⟩ ⟨[]⟩ :=
  (telemetry_cycle_correct ⟨⟨true, false, DsMode.Simulation, 12, 4201⟩⟩ ⟨[]⟩
    [⟨⟨true, false, DsMode.Simulation, 12, 4201⟩⟩]).1

/-- C10: the asset handler is a total function on request paths; when the
bundle holds the path it answers 200 with the guessed content type
(`application/octet-stream` when no guess exists) and the embedded bytes,
and otherwise it answers 404 with body `404 Not Found`. -/
theorem assets_total_and_correct (res : ResourceBundle) (mime : MimeGuess)
    (path : String) :
    (∀ content, res.get path = some content →
      assets res mime path =
        { status := 200
          content_type := some (mime.first_or_octet_stream path)
          body := content }) ∧
    (res.get path = none →
      assets res mime path =
        { status := 404, content_type := none, body := notFoundBody }) := by
  constructor
  · intro c hc
    simp [assets, hc]
  · intro hc
    simp [assets, hc]

/-- Witness for C10: a bundle holding the path yields the 200 response with
the octet-stream fallback; an empty bundle yields the 404 response. -/
theorem assets_total_and_correct_witness :
    assets ⟨fun _ => some [104, 105]⟩ ⟨fun _ => none⟩ "index.html" =
      { status := 200
        content_type := some "application/octet-stream"
        body := [104, 105] } ∧
    assets ⟨fun _ => none⟩ ⟨fun _ => none⟩ "missing.png" =
      { status := 404, content_type := none, body := notFoundBody } :=
  ⟨(assets_total_and_correct ⟨fun _ => some [104, 105]⟩ ⟨fun _ => none⟩
      "index.html").1 [104, 105] rfl,
   (assets_total_and_correct ⟨fun _ => none⟩ ⟨fun _ => none⟩
      "missing.png").2 rfl⟩

/-- The conditions under which `main` reaches the success path: the config
loads, the platform is supported, and every handshake channel delivers. -/
def startupSucceeds (env : Env) (cfg : Config) : Prop :=
  env.loadResult = some cfg ∧ env.os ≠ OS.windows ∧
  env.portRecv.isSome ∧ env.primaryRecv.isSome ∧
  (env.os = OS.linux → env.secondaryRecv.isSome)

/-- On the success path, `mainRun` is the startup phase followed by the
event-loop tail. -/
theorem mainRun_success (env : Env) (wid : Nat) (gui : List WindowEvent)
    (ex : State) (cfg : Config) (h : startupSucceeds env cfg) :
    mainRun env wid gui ex =
      (startupEvents env cfg ++ (mainTailEvents wid gui ex cfg).1,
       (mainTailEvents wid gui ex cfg).2) := by
  obtain ⟨hl, hw, hport, hprim, hsec⟩ := h
  obtain ⟨p, hp⟩ := Option.isSome_iff_exists.mp hport
  obtain ⟨a, ha⟩ := Option.isSome_iff_exists.mp hprim
  have hns : ¬(env.os = OS.linux ∧ env.secondaryRecv = none) := by
    rintro ⟨h1, h2⟩
    have := hsec h1
    rw [h2] at this
    simp at this
  simp [mainRun, hl, hw, hp, ha, launch_webserver, hns]

/-- Detects a sent `UpdateTeamNumber` message in a trace. -/
def isTeamNumberSend : Event → Bool
  | Event.sendMsg (Message.UpdateTeamNumber _ _) => true
  | _ => false

/-- Detects a forwarding of a team number to the DsEngine. -/
def isUpdateDs : Event → Bool
  | Event.updateDs _ => true
  | _ => false

/-- Detects a sent `Capabilities` message in a trace. -/
def isCapabilitiesSend : Event → Bool
  | Event.sendMsg (Message.Capabilities _) => true
  | _ => false

/-- The handshake phase sends no `UpdateTeamNumber`, no `Capabilities`,
and touches neither DsEngine nor the snapshot machinery. -/
theorem handshakeEvents_counts (env : Env) :
    (handshakeEvents env).countP isTeamNumberSend = 0 ∧
    (handshakeEvents env).countP isUpdateDs = 0 ∧
    (handshakeEvents env).countP isCapabilitiesSend = 0 := by
  unfold handshakeEvents hookEvents
  split <;> split <;>
    simp [List.countP_append, List.countP_cons, isTeamNumberSend, isUpdateDs,
      isCapabilitiesSend]

/-- C6: on the success path, an initial `UpdateTeamNumber` with
`from_backend = true` carrying the persisted team number is sent exactly
once when the persisted number is non-zero (and the DsEngine is updated
from config exactly once); when it is zero, no `UpdateTeamNumber` is sent
and the DsEngine is never updated from config. -/
theorem initial_team_number_iff_nonzero (env : Env) (wid : Nat)
    (gui : List WindowEvent) (ex : State) (cfg : Config)
    (h : startupSucceeds env cfg) :
    (cfg.team_number ≠ 0 →
      ((mainRun env wid gui ex).1.countP isTeamNumberSend = 1 ∧
       Event.sendMsg (Message.UpdateTeamNumber cfg.team_number true) ∈
         (mainRun env wid gui ex).1 ∧
       (mainRun env wid gui ex).1.countP isUpdateDs = 1)) ∧
    (cfg.team_number = 0 →
      ((mainRun env wid gui ex).1.countP isTeamNumberSend = 0 ∧
       (mainRun env wid gui ex).1.countP isUpdateDs = 0)) := by
  rw [mainRun_success env wid gui ex cfg h]
  obtain ⟨hc1, hc2, hc3⟩ := handshakeEvents_counts env
  constructor
  · intro hnz
    refine ⟨?_, ?_, ?_⟩
    · simp [startupEvents, teamEvents, mainTailEvents, hnz,
        List.countP_append, List.countP_cons, isTeamNumberSend, hc1]
      split <;>
        simp [List.countP_cons, List.countP_nil, isTeamNumberSend]
    · simp [startupEvents, teamEvents, hnz]
    · simp [startupEvents, teamEvents, mainTailEvents, hnz,
        List.countP_append, List.countP_cons, isUpdateDs, hc2]
      split <;>
        simp [List.countP_cons, List.countP_nil, isUpdateDs]
  · intro hz
    constructor
    · simp [startupEvents, teamEvents, mainTailEvents, hz,
        List.countP_append, List.countP_cons, isTeamNumberSend, hc1]
      split <;>
        simp [List.countP_cons, List.countP_nil, isTeamNumberSend]
    · simp [startupEvents, teamEvents, mainTailEvents, hz,
        List.countP_append, List.countP_cons, isUpdateDs, hc2]
      split <;>
        simp [List.countP_cons, List.countP_nil, isUpdateDs]

/-- Witness for C6 with persisted team 4201 on macOS. -/
theorem initial_team_number_iff_nonzero_witness :
    (4201 ≠ 0 →
      ((mainRun ⟨OS.macos, some ⟨4201⟩, true, some 8080, some (), none, true⟩
          1 [] ⟨⟨false, false, DsMode.Normal, 0, 4201⟩⟩).1.countP
          isTeamNumberSend = 1 ∧
       Event.sendMsg (Message.UpdateTeamNumber 4201 true) ∈
         (mainRun ⟨OS.macos, some ⟨4201⟩, true, some 8080, some (), none,
            true⟩ 1 [] ⟨⟨false, false, DsMode.Normal, 0, 4201⟩⟩).1 ∧
       (mainRun ⟨OS.macos, some ⟨4201⟩, true, some 8080, some (), none, true⟩
          1 [] ⟨⟨false, false, DsMode.Normal, 0, 4201⟩⟩).1.countP
          isUpdateDs = 1)) ∧
    (4201 = 0 →
      ((mainRun ⟨OS.macos, some ⟨4201⟩, true, some 8080, some (), none, true⟩
          1 [] ⟨⟨false, false, DsMode.Normal, 0, 4201⟩⟩).1.countP
          isTeamNumberSend = 0 ∧
       (mainRun ⟨OS.macos, some ⟨4201⟩, true, some 8080, some (), none, true⟩
          1 [] ⟨⟨false, false, DsMode.Normal, 0, 4201⟩⟩).1.countP
          isUpdateDs = 0)) :=
  initial_team_number_iff_nonzero
    ⟨OS.macos, some ⟨4201⟩, true, some 8080, some (), none, true⟩ 1 []
    ⟨⟨false, false, DsMode.Normal, 0, 4201⟩⟩ ⟨4201⟩
    ⟨rfl, by decide, rfl, rfl, by decide⟩

/-- C7: on the success path exactly one `Capabilities` message is sent, its
`backend_keybinds` field is exactly the flag `keys::bind_keys` returned
(whatever its value — a failed installation gives `false` without
terminating anything), and startup continues past it: the telemetry
thread is still spawned after the send and the run never panics or exits
the process. -/
theorem capabilities_sent_once (env : Env) (wid : Nat)
    (gui : List WindowEvent) (ex : State) (cfg : Config)
    (h : startupSucceeds env cfg) :
    (mainRun env wid gui ex).1.countP isCapabilitiesSend = 1 ∧
    Event.sendMsg (Message.Capabilities env.bindKeysResult) ∈
      (mainRun env wid gui ex).1 ∧
    precedes (Event.sendMsg (Message.Capabilities env.bindKeysResult))
      Event.spawnTelemetry (mainRun env wid gui ex).1 ∧
    ((mainRun env wid gui ex).2 = Outcome.completed ∨
     (mainRun env wid gui ex).2 = Outcome.parked) := by
  rw [mainRun_success env wid gui ex cfg h]
  obtain ⟨-, -, hc3⟩ := handshakeEvents_counts env
  refine ⟨?_, ?_, ?_, ?_⟩
  · simp [startupEvents, teamEvents, mainTailEvents, List.countP_append,
      List.countP_cons, isCapabilitiesSend, hc3]
    split <;> split <;>
      simp [List.countP_cons, List.countP_nil, isCapabilitiesSend]
  · simp [startupEvents]
  · refine ⟨handshakeEvents env ++ [Event.wireStdout] ++ teamEvents cfg ++
      [Event.bindKeys],
      Event.initSnapshot :: Event.spawnTelemetry ::
        (mainTailEvents wid gui ex cfg).1, ?_, ?_⟩
    · simp [startupEvents]
    · simp
  · unfold mainTailEvents
    split
    · left
      rfl
    · right
      rfl

/-- Witness for C7 with key-binding installation failed (`false` flag). -/
theorem capabilities_sent_once_witness :
    (mainRun ⟨OS.linux, some ⟨0⟩, false, some 8080, some (), some (), false⟩
       1 [] ⟨⟨false, false, DsMode.Normal, 0, 0⟩⟩).1.countP
       isCapabilitiesSend = 1 ∧
    Event.sendMsg (Message.Capabilities false) ∈
      (mainRun ⟨OS.linux, some ⟨0⟩, false, some 8080, some (), some (),
         false⟩ 1 [] ⟨⟨false, false, DsMode.Normal, 0, 0⟩⟩).1 ∧
    precedes (Event.sendMsg (Message.Capabilities false))
      Event.spawnTelemetry
      (mainRun ⟨OS.linux, some ⟨0⟩, false, some 8080, some (), some (),
         false⟩ 1 [] ⟨⟨false, false, DsMode.Normal, 0, 0⟩⟩).1 ∧
    ((mainRun ⟨OS.linux, some ⟨0⟩, false, some 8080, some (), some (),
        false⟩ 1 [] ⟨⟨false, false, DsMode.Normal, 0, 0⟩⟩).2 =
        Outcome.completed ∨
     (mainRun ⟨OS.linux, some ⟨0⟩, false, some 8080, some (), some (),
        false⟩ 1 [] ⟨⟨false, false, DsMode.Normal, 0, 0⟩⟩).2 =
        Outcome.parked) :=
  capabilities_sent_once
    ⟨OS.linux, some ⟨0⟩, false, some 8080, some (), some (), false⟩ 1 []
    ⟨⟨false, false, DsMode.Normal, 0, 0⟩⟩ ⟨0⟩
    ⟨rfl, by decide, rfl, rfl, fun _ => rfl⟩

/-- The success-path trace splits at the primary handshake receive. -/
theorem startup_split_primary (env : Env) (cfg : Config) (rest : List Event) :
    startupEvents env cfg ++ rest =
      (Event.loadConfig :: hookEvents env ++
        [Event.constructState, Event.launchWebserver]) ++
      Event.recvPrimary ::
        ((if env.os = OS.linux then
            [Event.recvSecondary, Event.sendSetAddr] else []) ++
         [Event.wireStdout] ++ teamEvents cfg ++
         [Event.bindKeys,
          Event.sendMsg (Message.Capabilities env.bindKeysResult),
          Event.initSnapshot, Event.spawnTelemetry] ++ rest) := by
  simp [startupEvents, handshakeEvents]

/-- On Linux, the success-path trace also splits at the secondary
handshake receive. -/
theorem startup_split_secondary (env : Env) (cfg : Config)
    (rest : List Event) (hlin : env.os = OS.linux) :
    startupEvents env cfg ++ rest =
      (Event.loadConfig :: hookEvents env ++
        [Event.constructState, Event.launchWebserver, Event.recvPrimary]) ++
      Event.recvSecondary ::
        ([Event.sendSetAddr, Event.wireStdout] ++ teamEvents cfg ++
         [Event.bindKeys,
          Event.sendMsg (Message.Capabilities env.bindKeysResult),
          Event.initSnapshot, Event.spawnTelemetry] ++ rest) := by
  simp [startupEvents, handshakeEvents, hlin]

/-- C5: on the success path the blocking primary handshake receive
precedes the key-binding installation, the input-subsystem start (which
initializes the joystick snapshot), and the telemetry-thread spawn; on
Linux the secondary console-relay handshake precedes them as well. -/
theorem subsystems_start_after_handshake (env : Env) (wid : Nat)
    (gui : List WindowEvent) (ex : State) (cfg : Config)
    (h : startupSucceeds env cfg) :
    (precedes Event.recvPrimary Event.bindKeys (mainRun env wid gui ex).1 ∧
     precedes Event.recvPrimary Event.initSnapshot
       (mainRun env wid gui ex).1 ∧
     precedes Event.recvPrimary Event.spawnTelemetry
       (mainRun env wid gui ex).1) ∧
    (env.os = OS.linux →
      precedes Event.recvSecondary Event.bindKeys
        (mainRun env wid gui ex).1 ∧
      precedes Event.recvSecondary Event.initSnapshot
        (mainRun env wid gui ex).1 ∧
      precedes Event.recvSecondary Event.spawnTelemetry
        (mainRun env wid gui ex).1) := by
  rw [mainRun_success env wid gui ex cfg h]
  constructor
  · refine ⟨⟨_, _, startup_split_primary env cfg _, by simp⟩,
      ⟨_, _, startup_split_primary env cfg _, by simp⟩,
      ⟨_, _, startup_split_primary env cfg _, by simp⟩⟩
  · intro hlin
    refine ⟨⟨_, _, startup_split_secondary env cfg _ hlin, by simp⟩,
      ⟨_, _, startup_split_secondary env cfg _ hlin, by simp⟩,
      ⟨_, _, startup_split_secondary env cfg _ hlin, by simp⟩⟩

/-- Witness for C5 on Linux with both handshakes delivered. -/
theorem subsystems_start_after_handshake_witness :
    (precedes Event.recvPrimary Event.bindKeys
       (mainRun ⟨OS.linux, some ⟨0⟩, true, some 8080, some (), some (),
          true⟩ 1 [] ⟨⟨false, false, DsMode.Normal, 0, 0⟩⟩).1 ∧
     precedes Event.recvPrimary Event.initSnapshot
       (mainRun ⟨OS.linux, some ⟨0⟩, true, some 8080, some (), some (),
          true⟩ 1 [] ⟨⟨false, false, DsMode.Normal, 0, 0⟩⟩).1 ∧
     precedes Event.recvPrimary Event.spawnTelemetry
       (mainRun ⟨OS.linux, some ⟨0⟩, true, some 8080, some (), some (),
          true⟩ 1 [] ⟨⟨false, false, DsMode.Normal, 0, 0⟩⟩).1) ∧
    (OS.linux = OS.linux →
      precedes Event.recvSecondary Event.bindKeys
        (mainRun ⟨OS.linux, some ⟨0⟩, true, some 8080, some (), some (),
           true⟩ 1 [] ⟨⟨false, false, DsMode.Normal, 0, 0⟩⟩).1 ∧
      precedes Event.recvSecondary Event.initSnapshot
        (mainRun ⟨OS.linux, some ⟨0⟩, true, some 8080, some (), some (),
           true⟩ 1 [] ⟨⟨false, false, DsMode.Normal, 0, 0⟩⟩).1 ∧
      precedes Event.recvSecondary Event.spawnTelemetry
        (mainRun ⟨OS.linux, some ⟨0⟩, true, some 8080, some (), some (),
           true⟩ 1 [] ⟨⟨false, false, DsMode.Normal, 0, 0⟩⟩).1) :=
  subsystems_start_after_handshake
    ⟨OS.linux, some ⟨0⟩, true, some 8080, some (), some (), true⟩ 1 []
    ⟨⟨false, false, DsMode.Normal, 0, 0⟩⟩ ⟨0⟩
    ⟨rfl, by decide, rfl, rfl, fun _ => rfl⟩

/-- C1: when the run terminates via the event loop's close path, the run
completes and its very last event is the configuration store whose stored
team number is exactly the team number held in the authoritative state at
exit. -/
theorem shutdown_persists_team_number (env : Env) (wid : Nat)
    (gui : List WindowEvent) (ex : State) (cfg : Config)
    (h : startupSucceeds env cfg)
    (hexit : eventLoopExits wid gui = true) :
    (mainRun env wid gui ex).2 = Outcome.completed ∧
    (mainRun env wid gui ex).1.getLast? =
      some (Event.storeConfig
        { cfg with team_number := ex.ds.team_number }) ∧
    ({ cfg with team_number := ex.ds.team_number } : Config).team_number =
      ex.ds.team_number := by
  rw [mainRun_success env wid gui ex cfg h]
  refine ⟨?_, ?_, rfl⟩
  · simp [mainTailEvents, hexit]
  · simp [mainTailEvents, hexit]

/-- Witness for C1: a close of the main window on macOS stores the team
number 9999 read back from the state at exit. -/
theorem shutdown_persists_team_number_witness :
    (mainRun ⟨OS.macos, some ⟨4201⟩, true, some 8080, some (), none, true⟩
       7 [WindowEvent.closeRequested 7]
       ⟨⟨true, true, DsMode.Normal, 11, 9999⟩⟩).2 = Outcome.completed ∧
    (mainRun ⟨OS.macos, some ⟨4201⟩, true, some 8080, some (), none, true⟩
       7 [WindowEvent.closeRequested 7]
       ⟨⟨true, true, DsMode.Normal, 11, 9999⟩⟩).1.getLast? =
      some (Event.storeConfig { team_number := 9999 }) ∧
    ({ team_number := 9999 } : Config).team_number = 9999 :=
  shutdown_persists_team_number
    ⟨OS.macos, some ⟨4201⟩, true, some 8080, some (), none, true⟩ 7
    [WindowEvent.closeRequested 7] ⟨⟨true, true, DsMode.Normal, 11, 9999⟩⟩
    ⟨4201⟩ ⟨rfl, by decide, rfl, rfl, by decide⟩ (by decide)

/-- C9: on Windows the run shows the unsupported-platform dialog and then
exits the process with code 1 — a nonzero code — and no core component is
ever constructed: the trace contains no state construction, no webserver
launch, no handshake receive, no key binding, no input-subsystem start,
and no telemetry spawn. -/
theorem windows_rejected_before_construction (env : Env) (wid : Nat)
    (gui : List WindowEvent) (ex : State) (cfg : Config)
    (hl : env.loadResult = some cfg) (hw : env.os = OS.windows) :
    (mainRun env wid gui ex).2 = Outcome.exitedProcess 1 ∧ (1 : Nat) ≠ 0 ∧
    (mainRun env wid gui ex).1.getLast? = some (Event.processExit 1) ∧
    precedes (Event.showDialog windowsDialogTitle windowsDialogText)
      (Event.processExit 1) (mainRun env wid gui ex).1 ∧
    Event.constructState ∉ (mainRun env wid gui ex).1 ∧
    Event.launchWebserver ∉ (mainRun env wid gui ex).1 ∧
    Event.recvPrimary ∉ (mainRun env wid gui ex).1 ∧
    Event.bindKeys ∉ (mainRun env wid gui ex).1 ∧
    Event.initSnapshot ∉ (mainRun env wid gui ex).1 ∧
    Event.spawnTelemetry ∉ (mainRun env wid gui ex).1 := by
  have hrun : mainRun env wid gui ex =
      (Event.loadConfig :: hookEvents env ++
        [Event.showDialog windowsDialogTitle windowsDialogText,
         Event.processExit 1],
       Outcome.exitedProcess 1) := by
    simp [mainRun, hl, hw]
  rw [hrun]
  refine ⟨rfl, by decide, ?_, ?_, ?_⟩
  · unfold hookEvents
    split <;> rfl
  · exact ⟨Event.loadConfig :: hookEvents env, [Event.processExit 1],
      by simp, by simp⟩
  · unfold hookEvents
    split <;> simp

/-- Witness for C9 on Windows with a loaded configuration. -/
theorem windows_rejected_before_construction_witness :
    (mainRun ⟨OS.windows, some ⟨4201⟩, true, none, none, none, false⟩ 1 []
       ⟨⟨false, false, DsMode.Normal, 0, 0⟩⟩).2 = Outcome.exitedProcess 1 ∧
    (1 : Nat) ≠ 0 ∧
    (mainRun ⟨OS.windows, some ⟨4201⟩, true, none, none, none, false⟩ 1 []
       ⟨⟨false, false, DsMode.Normal, 0, 0⟩⟩).1.getLast? =
      some (Event.processExit 1) ∧
    precedes (Event.showDialog windowsDialogTitle windowsDialogText)
      (Event.processExit 1)
      (mainRun ⟨OS.windows, some ⟨4201⟩, true, none, none, none, false⟩ 1 []
        ⟨⟨false, false, DsMode.Normal, 0, 0⟩⟩).1 ∧
    Event.constructState ∉
      (mainRun ⟨OS.windows, some ⟨4201⟩, true, none, none, none, false⟩ 1 []
        ⟨⟨false, false, DsMode.Normal, 0, 0⟩⟩).1 ∧
    Event.launchWebserver ∉
      (mainRun ⟨OS.windows, some ⟨4201⟩, true, none, none, none, false⟩ 1 []
        ⟨⟨false, false, DsMode.Normal, 0, 0⟩⟩).1 ∧
    Event.recvPrimary ∉
      (mainRun ⟨OS.windows, some ⟨4201⟩, true, none, none, none, false⟩ 1 []
        ⟨⟨false, false, DsMode.Normal, 0, 0⟩⟩).1 ∧
    Event.bindKeys ∉
      (mainRun ⟨OS.windows, some ⟨4201⟩, true, none, none, none, false⟩ 1 []
        ⟨⟨false, false, DsMode.Normal, 0, 0⟩⟩).1 ∧
    Event.initSnapshot ∉
      (mainRun ⟨OS.windows, some ⟨4201⟩, true, none, none, none, false⟩ 1 []
        ⟨⟨false, false, DsMode.Normal, 0, 0⟩⟩).1 ∧
    Event.spawnTelemetry ∉
      (mainRun ⟨OS.windows, some ⟨4201⟩, true, none, none, none, false⟩ 1 []
        ⟨⟨false, false, DsMode.Normal, 0, 0⟩⟩).1 :=
  windows_rejected_before_construction
    ⟨OS.windows, some ⟨4201⟩, true, none, none, none, false⟩ 1 []
    ⟨⟨false, false, DsMode.Normal, 0, 0⟩⟩ ⟨4201⟩ rfl rfl

/-- C8: a failed configuration load, a closed port-handshake channel
inside `launch_webserver`, or a closed relay-handshake channel before the
endpoint is delivered all end the run in a panic — fail-stop, with no
default value and no retry. -/
theorem failed_handshake_or_config_panics (env : Env) (wid : Nat)
    (gui : List WindowEvent) (ex : State)
    (h : env.loadResult = none ∨
      (env.os ≠ OS.windows ∧
        (env.portRecv = none ∨ env.primaryRecv = none))) :
    (mainRun env wid gui ex).2 = Outcome.panicked := by
  rcases h with h | ⟨hw, h⟩
  · simp [mainRun, h]
  · cases hl : env.loadResult with
    | none => simp [mainRun, hl]
    | some cfg =>
      rcases h with hp | hp
      · simp [mainRun, hl, hw, hp, launch_webserver]
      · cases hq : env.portRecv with
        | none => simp [mainRun, hl, hw, hq, launch_webserver]
        | some p => simp [mainRun, hl, hw, hq, hp, launch_webserver]

/-- Witness for C8: a relay-handshake channel closed before delivering the
endpoint panics the run. -/
theorem failed_handshake_or_config_panics_witness :
    (mainRun ⟨OS.macos, some ⟨0⟩, true, some 8080, none, none, false⟩ 1 []
       ⟨⟨false, false, DsMode.Normal, 0, 0⟩⟩).2 = Outcome.panicked :=
  failed_handshake_or_config_panics
    ⟨OS.macos, some ⟨0⟩, true, some 8080, none, none, false⟩ 1 []
    ⟨⟨false, false, DsMode.Normal, 0, 0⟩⟩
    (Or.inr ⟨by decide, Or.inr rfl⟩)

/-- Detects the one-time initialization of the joystick snapshot cell. -/
def isInitSnapshot : Event → Bool
  | Event.initSnapshot => true
  | _ => false

/-- The startup phase initializes the snapshot cell exactly once. -/
theorem startupEvents_init_count (env : Env) (cfg : Config) :
    (startupEvents env cfg).countP isInitSnapshot = 1 := by
  unfold startupEvents handshakeEvents hookEvents teamEvents
  split <;> split <;> split <;>
    simp [List.countP_append, List.countP_cons, isInitSnapshot]

/-- The startup phase never dereferences the snapshot cell. -/
theorem startupEvents_no_deref (env : Env) (cfg : Config) :
    Event.derefSnapshot ∉ startupEvents env cfg := by
  unfold startupEvents handshakeEvents hookEvents teamEvents
  split <;> split <;> split <;> simp

/-- The main thread's tail never initializes the snapshot cell. -/
theorem mainTailEvents_init_count (wid : Nat) (gui : List WindowEvent)
    (ex : State) (cfg : Config) :
    ((mainTailEvents wid gui ex cfg).1).countP isInitSnapshot = 0 := by
  unfold mainTailEvents
  split <;> simp [List.countP_cons, isInitSnapshot]

/-- The telemetry thread never initializes the snapshot cell. -/
theorem telemetryTrace_init_count (cell : Option JoystickState)
    (snaps : List State) :
    (telemetryTrace cell snaps).countP isInitSnapshot = 0 := by
  induction snaps with
  | nil => rfl
  | cons st rest ih =>
    rw [telemetryTrace, List.countP_append, ih]
    cases cell <;>
      simp [telemetryIteration, List.countP_cons, isInitSnapshot]

/-- The startup phase splits at the snapshot initialization. -/
theorem startup_split_init (env : Env) (cfg : Config) :
    startupEvents env cfg =
      (handshakeEvents env ++ [Event.wireStdout] ++ teamEvents cfg ++
        [Event.bindKeys,
         Event.sendMsg (Message.Capabilities env.bindKeysResult)]) ++
      Event.initSnapshot :: [Event.spawnTelemetry] := by
  simp [startupEvents]

/-- C3: over every schedule of the main thread against the telemetry
thread — the trace being the startup phase followed by any interleaving
of the main thread's tail with the telemetry thread's events, all of
which happen after the spawn — the joystick snapshot cell is initialized
exactly once, and that initialization occurs strictly before every
dereference of the cell, in particular before the telemetry broadcaster's
first cycle dereferences it. -/
theorem snapshot_initialized_once_before_reads (env : Env) (wid : Nat)
    (gui : List WindowEvent) (ex : State) (cfg : Config)
    (js : JoystickState) (snaps : List State) (mix t : List Event)
    (h : startupSucceeds env cfg)
    (hmix : Interleave (mainTailEvents wid gui ex cfg).1
      (telemetryTrace (some js) snaps) mix)
    (ht : t = startupEvents env cfg ++ mix) :
    t.countP isInitSnapshot = 1 ∧
    ∀ i : Nat, t[i]? = some Event.derefSnapshot →
      ∃ j, j < i ∧ t[j]? = some Event.initSnapshot := by
  subst ht
  constructor
  · rw [List.countP_append, startupEvents_init_count,
      Interleave.countP_eq hmix, mainTailEvents_init_count,
      telemetryTrace_init_count]
  · intro i hi
    have hL2 : ((handshakeEvents env ++ [Event.wireStdout] ++
        teamEvents cfg ++
        [Event.bindKeys,
         Event.sendMsg (Message.Capabilities env.bindKeysResult)]).length
          + 2) = (startupEvents env cfg).length := by
      rw [startup_split_init env cfg]
      simp
      omega
    have hge : (startupEvents env cfg).length ≤ i := by
      by_contra hlt
      push_neg at hlt
      rw [List.getElem?_append_left hlt] at hi
      exact startupEvents_no_deref env cfg (List.getElem?_mem hi)
    refine ⟨(handshakeEvents env ++ [Event.wireStdout] ++ teamEvents cfg ++
      [Event.bindKeys,
       Event.sendMsg (Message.Capabilities env.bindKeysResult)]).length,
      by omega, ?_⟩
    rw [List.getElem?_append_left (by omega), startup_split_init env cfg,
      List.getElem?_append_right (le_refl _)]
    simp

/-- Witness for C3 on a concrete schedule: the telemetry thread runs one
full cycle interleaved before the main thread's tail. -/
theorem snapshot_initialized_once_before_reads_witness :
    ((startupEvents ⟨OS.macos, some ⟨0⟩, true, some 8080, some (), none,
        true⟩ ⟨0⟩ ++
      (telemetryTrace (some ⟨[]⟩) [⟨⟨false, false, DsMode.Normal, 0, 0⟩⟩] ++
        (mainTailEvents 1 [] ⟨⟨false, false, DsMode.Normal, 0, 0⟩⟩
          ⟨0⟩).1)).countP isInitSnapshot = 1 ∧
     ∀ i : Nat, (startupEvents ⟨OS.macos, some ⟨0⟩, true, some 8080,
        some (), none, true⟩ ⟨0⟩ ++
      (telemetryTrace (some ⟨[]⟩) [⟨⟨false, false, DsMode.Normal, 0, 0⟩⟩] ++
        (mainTailEvents 1 [] ⟨⟨false, false, DsMode.Normal, 0, 0⟩⟩
          ⟨0⟩).1))[i]? = some Event.derefSnapshot →
      ∃ j, j < i ∧
        (startupEvents ⟨OS.macos, some ⟨0⟩, true, some 8080, some (), none,
          true⟩ ⟨0⟩ ++
        (telemetryTrace (some ⟨[]⟩)
          [⟨⟨false, false, DsMode.Normal, 0, 0⟩⟩] ++
          (mainTailEvents 1 [] ⟨⟨false, false, DsMode.Normal, 0, 0⟩⟩
            ⟨0⟩).1))[j]? = some Event.initSnapshot) :=
  snapshot_initialized_once_before_reads
    ⟨OS.macos, some ⟨0⟩, true, some 8080, some (), none, true⟩ 1 []
    ⟨⟨false, false, DsMode.Normal, 0, 0⟩⟩ ⟨0⟩ ⟨[]⟩
    [⟨⟨false, false, DsMode.Normal, 0, 0⟩⟩]
    (telemetryTrace (some ⟨[]⟩) [⟨⟨false, false, DsMode.Normal, 0, 0⟩⟩] ++
      (mainTailEvents 1 [] ⟨⟨false, false, DsMode.Normal, 0, 0⟩⟩ ⟨0⟩).1)
    (startupEvents ⟨OS.macos, some ⟨0⟩, true, some 8080, some (), none,
      true⟩ ⟨0⟩ ++
     (telemetryTrace (some ⟨[]⟩) [⟨⟨false, false, DsMode.Normal, 0, 0⟩⟩] ++
      (mainTailEvents 1 [] ⟨⟨false, false, DsMode.Normal, 0, 0⟩⟩ ⟨0⟩).1))
    ⟨rfl, by decide, rfl, rfl, by decide⟩
    (by
      have h1 : ∀ ys : List Event, Interleave [] ys ys := by
        intro ys
        induction ys with
        | nil => exact Interleave.nil
        | cons y ys ih => exact Interleave.right ih
      have h2 : ∀ xs ys : List Event, Interleave xs ys (ys ++ xs) := by
        intro xs ys
        induction ys with
        | nil =>
          induction xs with
          | nil => exact Interleave.nil
          | cons x xs ih => simpa using Interleave.left ih
        | cons y ys ih => exact Interleave.right ih
      exact h2 _ _)
    rfl

end Conductor
